import Mathlib

/-!
Shallow embedding of the dual-tier persistence and caching layer of the
guessing-game backend, translated from the repository sources:

* `backend/core/ai_client.py` — backoff controller, distributed rate limiter,
  retry loops around the external judgment/feedback calls, verdict parsing;
* `backend/core/redis_client.py` — the shared (Redis) tier: typed get/set and
  increment with sentinel outcomes (absent / unavailable) instead of raised
  errors;
* `backend/core/cache.py` — the cache façade over verdicts and counters with
  the in-process fallback maps and their TTL;
* `backend/api/routes/game_routes.py` — the session store: shared tier first,
  `SessionManager` in-memory fallback with max-age expiry;
* `backend/core/game_logic.py` — the `GameSession` state machine.

Conventions of the embedding: wall-clock and monotonic times are rationals,
Python dicts are functions into `Option`, Python sets are `Finset String`,
an external call that raises is an attempt returning `none`, and the JSON
encode/decode round trip performed by the shared tier is the identity on the
typed payloads stored here (the payloads are booleans, integers and the
session dictionary, all of which serialize losslessly).
-/

/-- Python `str.lower` on one character (the words of this game are ASCII;
only the ASCII range changes case here). -/
def lowerChar (c : Char) : Char :=
  if 65 ≤ c.toNat ∧ c.toNat ≤ 90 then Char.ofNat (c.toNat + 32) else c

/-- Python `str.lower`. -/
def pyLower (s : String) : String :=
  ⟨s.data.map lowerChar⟩

/-- Python `str.strip`: drop leading and trailing whitespace. -/
def pyStrip (s : String) : String :=
  ⟨((s.data.dropWhile Char.isWhitespace).reverse.dropWhile Char.isWhitespace).reverse⟩

/-- `mapInsert m k v` is Python `m[k] = v` on a dict modelled as a function. -/
def mapInsert {α : Type} (m : String → Option α) (k : String) (v : α) :
    String → Option α :=
  fun q => if q = k then some v else m q

/-- `mapErase m k` is Python `del m[k]` on a dict modelled as a function. -/
def mapErase {α : Type} (m : String → Option α) (k : String) :
    String → Option α :=
  fun q => if q = k then none else m q

/-! ### ai_client.py: constants, backoff controller -/

/-- `REQUEST_INTERVAL = 0.5` seconds: minimum spacing between outbound calls
in one category (ai_client.py line 83). -/
def REQUEST_INTERVAL : ℚ := 1/2

/-- `MAX_BACKOFF = 60` seconds (ai_client.py line 87). -/
def MAX_BACKOFF : ℚ := 60

/-- `INITIAL_BACKOFF = 1` second (ai_client.py line 88). -/
def INITIAL_BACKOFF : ℚ := 1

/-- `BackoffState` (ai_client.py lines 90-103): a single growing retry delay. -/
structure BackoffState where
  backoff_time : ℚ
deriving DecidableEq

/-- `BackoffState.reset`: restore the delay to `INITIAL_BACKOFF`. -/
def BackoffState.reset (_ : BackoffState) : BackoffState :=
  ⟨INITIAL_BACKOFF⟩

/-- `BackoffState.increase`: return the current delay, then double the stored
delay capped at `MAX_BACKOFF`. -/
def BackoffState.increase (b : BackoffState) : ℚ × BackoffState :=
  (b.backoff_time, ⟨min (b.backoff_time * 2) MAX_BACKOFF⟩)

/-- The backoff state after `n` consecutive calls to `increase`, starting from
the initial state `⟨INITIAL_BACKOFF⟩`. -/
def backoffStateAt : Nat → BackoffState
  | 0 => ⟨INITIAL_BACKOFF⟩
  | n + 1 => (backoffStateAt n).increase.2

/-- The `n`-th retry delay produced by a run of consecutive failures: the value
returned by the `n`-th call to `increase` from the initial state. -/
def backoffDelay (n : Nat) : ℚ :=
  (backoffStateAt n).backoff_time

/-! ### ai_client.py: verdict parsing -/

/-- Whether the character list starting here begins with `pat`. -/
def listStartsWith : List Char → List Char → Bool
  | _, [] => true
  | [], _ :: _ => false
  | c :: cs, d :: ds => c = d && listStartsWith cs ds

/-- Whether `pat` occurs somewhere inside the character list. -/
def listOccurs (pat : List Char) : List Char → Bool
  | [] => pat.isEmpty
  | c :: cs => listStartsWith (c :: cs) pat || listOccurs pat cs

/-- Python `pat in t` on strings: substring occurrence. -/
def strContains (t pat : String) : Bool :=
  listOccurs pat.toList t.toList

/-- Semantics of `re.search` with the anchored pattern `^\s*W\s*$` against a
text: the pattern matches exactly when the text with surrounding whitespace
removed equals the word `W` (ai_client.py lines 178-186). -/
def anchored_match (pat t : String) : Bool :=
  pyStrip t = pat

/-- `parse_ai_response` (ai_client.py lines 156-196): layered matchers over the
stripped, lower-cased response text. Confidence values 1.0 / 0.95 / 0.9 / 0.6 /
0.0 are embedded as exact rationals. The function is total: unparseable input
falls through to `(false, 0)` instead of raising. -/
def parse_ai_response (response_text : String) : Bool × ℚ :=
  let text := pyLower (pyStrip response_text)
  if text = "true" then (true, 1)
  else if text = "false" then (false, 1)
  else if anchored_match "true" text then (true, 95/100)
  else if anchored_match "false" text then (false, 95/100)
  else if anchored_match "yes" text then (true, 9/10)
  else if anchored_match "no" text then (false, 9/10)
  else if strContains text "true" && !strContains text "false" then (true, 6/10)
  else if strContains text "false" && !strContains text "true" then (false, 6/10)
  else (false, 0)

/-! ### ai_client.py: retry loops around the external calls -/

/-- The single-quote character used by the templated feedback strings. -/
def squote : String :=
  String.singleton (Char.ofNat 39)

/-- A word wrapped in single quotes, as the Python f-strings produce. -/
def quoted (s : String) : String :=
  squote ++ s ++ squote

/-- `default_feedback` (ai_client.py line 273): the deterministic templated
sentence returned when the feedback call cannot be completed. -/
def default_feedback (current_word guess : String) (verdict : Bool) : String :=
  (if verdict then "Correct!" else "Incorrect!") ++ " " ++ quoted guess ++ " " ++
    (if verdict then "beats" else "does not beat") ++ " " ++
    quoted current_word ++ "."

/-- The retry loop shared by `check_if_beats` and `get_feedback`
(ai_client.py lines 219-248 and 270-301). `attempt i` is the outcome of the
`i`-th call to the external service: `none` models the call raising, `some v`
a successful response already mapped to its result. The loop makes attempts
while `fuel` (initially `max_retries - retries`) remains; on failure it
increments the attempt count, sleeps the delay produced by
`BackoffState.increase`, and gives up with `default` once the ceiling is
reached; on success it resets the backoff state. Returns the result, the
number of attempts made, the final backoff state, and the list of slept
delays. -/
def retry_loop {α : Type} (attempt : Nat → Option α) (default : α) :
    Nat → Nat → BackoffState → List ℚ → α × Nat × BackoffState × List ℚ
  | 0, idx, b, delays => (default, idx, b, delays)
  | fuel + 1, idx, b, delays =>
    match attempt idx with
    | some v => (v, idx + 1, b.reset, delays)
    | none =>
      let p := b.increase
      retry_loop attempt default fuel (idx + 1) p.2 (delays ++ [p.1])

/-- `check_if_beats` (ai_client.py lines 198-248), judgment-call portion after
the rate-limiter block: up to `max_retries = 3` attempts, each successful raw
response parsed by `parse_ai_response` (the low-confidence path only logs), the
terminal default verdict being `false`. `response i = none` models the `i`-th
API call raising. Prompt construction from the persona is omitted: it does not
affect the control flow or the result. -/
def check_if_beats (response : Nat → Option String) (b : BackoffState) :
    Bool × Nat × BackoffState × List ℚ :=
  retry_loop (fun i => (response i).map (fun t => (parse_ai_response t).1))
    false 3 0 b []

/-- `get_feedback` (ai_client.py lines 250-301) after the rate-limiter block:
up to `max_retries = 3` attempts; a successful response with non-empty text is
returned stripped, an empty text falls back to the template, and failure after
the ceiling returns the template. -/
def get_feedback (response : Nat → Option String)
    (current_word guess : String) (verdict : Bool) (b : BackoffState) :
    String × Nat × BackoffState × List ℚ :=
  let default := default_feedback current_word guess verdict
  retry_loop
    (fun i => (response i).map (fun t => if t = "" then default else pyStrip t))
    default 3 0 b []

/-! ### ai_client.py: the rate-limiter protocol (lines 108-154 and 207-217)

One caller's pass through the limiter: read the category's last-permitted
timestamp from the shared key, measure the gap against `REQUEST_INTERVAL`,
sleep the remaining delta when the gap is too small, record a fresh timestamp,
then invoke the external call. Event-loop times are rationals; the record is an
observed execution, constrained by `follows` to the behaviour the code
guarantees. -/

/-- One execution of the rate-limiter protocol by one caller:
`lastSeen` is the timestamp value read from the shared key, `readTime` the
event-loop time at which the gap was measured, `writeVal` the fresh timestamp
recorded after the optional sleep, `writeDone` the time the shared-store write
completed, and `callTime` the time the external call was made. -/
structure LimiterExec where
  lastSeen : ℚ
  readTime : ℚ
  writeVal : ℚ
  writeDone : ℚ
  callTime : ℚ
deriving DecidableEq

/-- The constraints ai_client.py lines 207-217 guarantee for any execution:
time advances monotonically through the steps, and when the observed gap was
below `REQUEST_INTERVAL` the caller slept the remaining delta, so the recorded
timestamp is at least `lastSeen + REQUEST_INTERVAL`. -/
def LimiterExec.follows (e : LimiterExec) : Prop :=
  e.readTime ≤ e.writeVal ∧ e.writeVal ≤ e.writeDone ∧
    e.writeDone ≤ e.callTime ∧
    (e.readTime - e.lastSeen < REQUEST_INTERVAL →
      e.lastSeen + REQUEST_INTERVAL ≤ e.writeVal)

instance (e : LimiterExec) : Decidable e.follows := by
  unfold LimiterExec.follows
  infer_instance

/-- A realizable concurrent interleaving of two callers in the same category:
both executions follow the protocol, both reads happened while the shared key
still held the prior value `last0` (each read completed before the other
caller's write did, which the cooperative scheduler permits because the read,
the write and the sleep are separate suspension points), so both callers saw
`lastSeen = last0`. -/
def bothReadStale (last0 : ℚ) (e1 e2 : LimiterExec) : Prop :=
  e1.follows ∧ e2.follows ∧
    e1.lastSeen = last0 ∧ e2.lastSeen = last0 ∧
    last0 ≤ e1.readTime ∧ last0 ≤ e2.readTime ∧
    e1.readTime < e2.writeDone ∧ e2.readTime < e1.writeDone

instance (last0 : ℚ) (e1 e2 : LimiterExec) : Decidable (bothReadStale last0 e1 e2) := by
  unfold bothReadStale
  infer_instance

/-! ### redis_client.py: the shared tier with sentinel outcomes -/

/-- `CACHE_TTL = 24 * 60 * 60` seconds (cache.py line 17). -/
def CACHE_TTL : ℚ := 24 * 60 * 60

/-- The dictionary produced by `GameSession.to_dict` (game_logic.py lines
99-108) and stored in the shared tier by `save_session`. -/
structure SessionDict where
  history_list : List String
  current_word : String
  score : Nat
  game_over : Bool
  persona : String
  seen_guesses : Finset String
deriving DecidableEq

/-- State of the shared (Redis) tier as the rest of the layer observes it
through redis_client.py: an availability flag and the stored values, split by
key family (boolean verdict payloads, integer counters with absent read as 0,
and serialized session dictionaries). When `available` is false every
operation returns its sentinel (`none` / `0` / `false`) and leaves the store
unchanged, matching the caught-connection-error paths. -/
structure RedisState where
  available : Bool
  verdicts : String → Option Bool
  counters : String → Nat
  sessions : String → Option SessionDict

/-- `set_cache` for a boolean payload (redis_client.py lines 47-75): store and
answer `true` when available, otherwise the sentinel `false` with the store
untouched. -/
def RedisState.set_cache_verdict (r : RedisState) (key : String) (v : Bool) :
    Bool × RedisState :=
  if r.available then (true, { r with verdicts := mapInsert r.verdicts key v })
  else (false, r)

/-- `get_cache` for a boolean payload (redis_client.py lines 77-104): `none`
both when the key is absent and when the store is unavailable. -/
def RedisState.get_cache_verdict (r : RedisState) (key : String) : Option Bool :=
  if r.available then r.verdicts key else none

/-- `increment_counter` (redis_client.py lines 106-130): atomic increment
treating absent as 0, returning the new value; the sentinel `0` when
unavailable, store untouched. -/
def RedisState.increment_counter (r : RedisState) (key : String) :
    Nat × RedisState :=
  if r.available then
    (r.counters key + 1,
      { r with counters := fun q => if q = key then r.counters key + 1 else r.counters q })
  else (0, r)

/-- `get_counter` (redis_client.py lines 132-156): the stored value, with both
an absent key and an unavailable store read as 0. -/
def RedisState.get_counter (r : RedisState) (key : String) : Nat :=
  if r.available then r.counters key else 0

/-- `save_session` (redis_client.py lines 188-200): `set_cache` of the session
dictionary under the `session:`-prefixed key with the 7-day TTL. -/
def RedisState.save_session (r : RedisState) (session_id : String)
    (data : SessionDict) : Bool × RedisState :=
  if r.available then
    (true, { r with sessions := mapInsert r.sessions ("session:" ++ session_id) data })
  else (false, r)

/-- `get_session` (redis_client.py lines 202-213): `get_cache` of the
`session:`-prefixed key. -/
def RedisState.get_session (r : RedisState) (session_id : String) :
    Option SessionDict :=
  if r.available then r.sessions ("session:" ++ session_id) else none

/-! ### cache.py: verdict cache and counters with the local fallback -/

/-- `LocalCache` (cache.py lines 8-15): the in-process fallback maps. The
word-pair counter map is omitted; no claim concerns it. -/
structure LocalCache where
  verdict_cache : String → Option Bool
  global_counts : String → Option Nat
  cache_timestamps : String → Option ℚ

/-- The state cache.py operates on: the shared tier, the module's `local_cache`
and the current `time.monotonic()` reading. -/
structure CacheWorld where
  redis : RedisState
  localCache : LocalCache
  now : ℚ

/-- `get_verdict_from_cache` (cache.py lines 23-46): shared tier first; a
present shared result is mirrored into the local map with a fresh timestamp
and returned; otherwise the local entry answers if it exists and its age is
within `CACHE_TTL`, an older entry being evicted and reported absent. -/
def get_verdict_from_cache (w : CacheWorld) (cache_key : String) :
    Option Bool × CacheWorld :=
  match w.redis.get_cache_verdict ("verdict:" ++ cache_key) with
  | some b =>
    (some b,
      { w with localCache :=
        { w.localCache with
          verdict_cache := mapInsert w.localCache.verdict_cache cache_key b,
          cache_timestamps := mapInsert w.localCache.cache_timestamps cache_key w.now } })
  | none =>
    match w.localCache.verdict_cache cache_key with
    | some v =>
      if w.now - ((w.localCache.cache_timestamps cache_key).getD 0) ≤ CACHE_TTL then
        (some v, w)
      else
        (none,
          { w with localCache :=
            { w.localCache with
              verdict_cache := mapErase w.localCache.verdict_cache cache_key,
              cache_timestamps := mapErase w.localCache.cache_timestamps cache_key } })
    | none => (none, w)

/-- `save_verdict_to_cache` (cache.py lines 48-55): best-effort shared write,
then an unconditional local write with a fresh timestamp (the shared outcome
`redis_success` is ignored, as in the source). -/
def save_verdict_to_cache (w : CacheWorld) (cache_key : String) (verdict : Bool) :
    CacheWorld :=
  let p := w.redis.set_cache_verdict ("verdict:" ++ cache_key) verdict
  { w with
    redis := p.2,
    localCache :=
      { w.localCache with
        verdict_cache := mapInsert w.localCache.verdict_cache cache_key verdict,
        cache_timestamps := mapInsert w.localCache.cache_timestamps cache_key w.now } }

/-- `get_global_count` (cache.py lines 57-67): a positive shared value is
mirrored into the local map (overwrite) and returned; otherwise the local
entry (default 0) answers, unchanged. -/
def get_global_count (w : CacheWorld) (word : String) : Nat × CacheWorld :=
  let lw := pyLower word
  let count := w.redis.get_counter ("count:" ++ lw)
  if count > 0 then
    (count,
      { w with localCache :=
        { w.localCache with global_counts := mapInsert w.localCache.global_counts lw count } })
  else
    ((w.localCache.global_counts lw).getD 0, w)

/-- `increment_global_count` (cache.py lines 69-81): increment the shared
counter, then unconditionally bump the local entry by one (creating it at 1),
and return the shared value when positive, the new local value otherwise. -/
def increment_global_count (w : CacheWorld) (word : String) : Nat × CacheWorld :=
  let lw := pyLower word
  let p := w.redis.increment_counter ("count:" ++ lw)
  let newLocal := match w.localCache.global_counts lw with
    | some n => n + 1
    | none => 1
  let w' := { w with
    redis := p.2,
    localCache :=
      { w.localCache with global_counts := mapInsert w.localCache.global_counts lw newLocal } }
  (if p.1 > 0 then p.1 else newLocal, w')

/-! ### game_logic.py: the session state machine -/

/-- `GuessResult` (game_logic.py lines 9-14). -/
structure GuessResult where
  valid : Bool
  message : String
  game_over : Bool := false
  ai_feedback : String := ""
deriving DecidableEq

/-- `GameSession` (game_logic.py lines 16-23); `seen_guesses` is a Python set,
embedded as a `Finset`. -/
structure GameSession where
  history_list : List String
  current_word : String
  score : Nat
  game_over : Bool
  persona : String
  seen_guesses : Finset String
deriving DecidableEq

/-- The `GameSession` constructor (game_logic.py lines 17-23). -/
def GameSession.init (initial_word : String) (persona : String) : GameSession :=
  ⟨[initial_word], initial_word, 0, false, persona, {pyLower initial_word}⟩

/-- Outcomes of the external collaborators consulted during one
`process_guess`: the moderation verdict and reason, the prompt-injection check,
the boolean verdict ultimately used (whether it came from the verdict cache or
from a fresh `check_if_beats` call, both paths feed the same boolean into
`_process_verdict_with_feedback`), and the feedback text. -/
structure GuessEnv where
  moderation_ok : Bool
  moderation_reason : String
  injection_safe : Bool
  injection_reason : String
  verdict : Bool
  feedback : String

/-- `_process_verdict_with_feedback` (game_logic.py lines 71-93): a winning
verdict appends the guess to the history, makes it current, adds its
case-folded form to the seen set and bumps the score; a losing verdict ends
the game. -/
def GameSession.process_verdict_with_feedback (s : GameSession) (guess : String)
    (beats : Bool) (ai_feedback : String) : GameSession × GuessResult :=
  if beats then
    ({ s with
        current_word := guess,
        history_list := s.history_list ++ [guess],
        seen_guesses := insert (pyLower guess) s.seen_guesses,
        score := s.score + 1 },
      ⟨true,
        "Correct! " ++ quoted guess ++ " beats " ++ quoted s.current_word ++
          ". What beats " ++ guess ++ "?",
        false, ai_feedback⟩)
  else
    ({ s with game_over := true },
      ⟨false,
        "Game over! " ++ quoted guess ++ " does not beat " ++
          quoted s.current_word ++ ".",
        true, ai_feedback⟩)

/-- `process_guess` (game_logic.py lines 25-69): reject immediately when the
game is over; a case-insensitive repeat ends the game; a moderation or
injection rejection leaves the state untouched; otherwise the verdict decides
via `process_verdict_with_feedback`. -/
def GameSession.process_guess (s : GameSession) (env : GuessEnv) (guess : String) :
    GameSession × GuessResult :=
  if s.game_over then
    (s, ⟨false, "Game is already over. Start a new game.", true, ""⟩)
  else if pyLower guess ∈ s.seen_guesses then
    ({ s with game_over := true },
      ⟨false,
        "Game over! " ++ quoted guess ++ " has already been used in this game.",
        true, ""⟩)
  else if !env.moderation_ok then
    (s, ⟨false, "That guess contains inappropriate content: " ++ env.moderation_reason,
      false, ""⟩)
  else if !env.injection_safe then
    (s, ⟨false, "That guess was rejected: " ++ env.injection_reason, false, ""⟩)
  else
    s.process_verdict_with_feedback guess env.verdict env.feedback

/-- The sessions reachable from the constructor by any sequence of
`process_guess` calls under any environment outcomes. -/
inductive GameSession.Reachable : GameSession → Prop
  | init (w p : String) : GameSession.Reachable (GameSession.init w p)
  | step (s : GameSession) (env : GuessEnv) (g : String) :
      GameSession.Reachable s → GameSession.Reachable (s.process_guess env g).1

/-- `to_dict` (game_logic.py lines 99-108). -/
def GameSession.to_dict (s : GameSession) : SessionDict :=
  ⟨s.history_list, s.current_word, s.score, s.game_over, s.persona, s.seen_guesses⟩

/-- `from_dict` (game_logic.py lines 110-121): construct from the stored
current word and persona, then overwrite history, score, game-over flag and
seen set from the dictionary. -/
def GameSession.from_dict (d : SessionDict) : GameSession :=
  let s := GameSession.init d.current_word d.persona
  { s with
    history_list := d.history_list,
    score := d.score,
    game_over := d.game_over,
    seen_guesses := d.seen_guesses }

/-! ### game_routes.py: the session store with the in-memory fallback -/

/-- `SessionManager.max_age = 24 * 60 * 60` (game_routes.py line 40). -/
def sessionMaxAge : ℚ := 24 * 60 * 60

/-- The mutable maps of `SessionManager` (game_routes.py lines 36-41). -/
structure SessionManagerState where
  sessions : String → Option GameSession
  timestamps : String → Option ℚ

/-- `SessionManager.add_session` (game_routes.py lines 67-70). -/
def SessionManagerState.add_session (m : SessionManagerState) (session_id : String)
    (s : GameSession) (now : ℚ) : SessionManagerState :=
  { m with
    sessions := mapInsert m.sessions session_id s,
    timestamps := mapInsert m.timestamps session_id now }

/-- `SessionManager.get_session` (game_routes.py lines 72-87): absent when
unknown; an entry older than `max_age` is evicted and reported absent; a live
entry refreshes its last-access timestamp and is returned. -/
def SessionManagerState.get_session (m : SessionManagerState) (session_id : String)
    (now : ℚ) : Option GameSession × SessionManagerState :=
  match m.sessions session_id with
  | none => (none, m)
  | some s =>
    if now - ((m.timestamps session_id).getD 0) > sessionMaxAge then
      (none,
        { m with
          sessions := mapErase m.sessions session_id,
          timestamps := mapErase m.timestamps session_id })
    else
      (some s, { m with timestamps := mapInsert m.timestamps session_id now })

/-- `SessionManager.update_session` (game_routes.py lines 89-93): write the
session and refresh its timestamp only when the id is already present. -/
def SessionManagerState.update_session (m : SessionManagerState) (session_id : String)
    (s : GameSession) (now : ℚ) : SessionManagerState :=
  if (m.sessions session_id).isSome then
    { m with
      sessions := mapInsert m.sessions session_id s,
      timestamps := mapInsert m.timestamps session_id now }
  else m

/-- The state the session-store helpers of game_routes.py operate on. -/
structure SessionWorld where
  redis : RedisState
  manager : SessionManagerState
  now : ℚ

/-- `save_game_session` (game_routes.py lines 135-140): attempt the shared
store; on failure, hand the record to `SessionManager.update_session`. -/
def save_game_session (w : SessionWorld) (session_id : String) (s : GameSession) :
    SessionWorld :=
  let p := w.redis.save_session session_id s.to_dict
  if p.1 then { w with redis := p.2 }
  else { w with redis := p.2, manager := w.manager.update_session session_id s w.now }

/-- `get_game_session` (game_routes.py lines 127-133): shared store first,
deserializing on a hit; otherwise the in-memory fallback with its expiry. -/
def get_game_session (w : SessionWorld) (session_id : String) :
    Option GameSession × SessionWorld :=
  match w.redis.get_session session_id with
  | some d => (some (GameSession.from_dict d), w)
  | none =>
    let p := w.manager.get_session session_id w.now
    (p.1, { w with manager := p.2 })

/-! ### Concrete states used by counterexamples and witnesses -/

/-- A shared tier that is down, holding nothing. -/
def emptyRedisDown : RedisState :=
  ⟨false, fun _ => none, fun _ => 0, fun _ => none⟩

/-- A session world with the shared tier down and both local maps empty. -/
def exWorldDown : SessionWorld :=
  ⟨emptyRedisDown, ⟨fun _ => none, fun _ => none⟩, 0⟩

/-- A fresh session on the initial word, as `start_game` creates it. -/
def exSession : GameSession :=
  GameSession.init "Rock" "default"

/-- A session world with the shared tier down but `exSession` already present
in the in-memory fallback under id `s1` (as `add_session` leaves it). -/
def exWorldDownWithLocal : SessionWorld :=
  ⟨emptyRedisDown,
    ⟨fun q => if q = "s1" then some exSession else none,
      fun q => if q = "s1" then some 0 else none⟩, 0⟩

/-- A cache world with a healthy shared tier holding 99 for the counter of
`w`, while the local map holds 5: the state exercised by the counter-mirror
counterexample. -/
def exCounterWorld : CacheWorld :=
  ⟨⟨true, fun _ => none, fun q => if q = "count:w" then 99 else 0, fun _ => none⟩,
    ⟨fun _ => none, fun q => if q = "w" then some 5 else none, fun _ => none⟩, 0⟩

/-- A cache world with the shared tier down and an expired local verdict entry
for key `k` (written at time 0, read at `CACHE_TTL + 1`). -/
def exExpiredWorld : CacheWorld :=
  ⟨emptyRedisDown,
    ⟨fun q => if q = "k" then some true else none, fun _ => none,
      fun q => if q = "k" then some 0 else none⟩,
    CACHE_TTL + 1⟩

/-- First caller of the concurrent rate-limiter counterexample: reads the
stale timestamp 0 at time 99 (gap far above the interval, so no sleep),
records 99.1, write completes at 99.2, calls at 99.3. -/
def exLimiterA : LimiterExec :=
  ⟨0, 99, 99 + 1/10, 99 + 2/10, 99 + 3/10⟩

/-- Second caller: its read at 99.05 completes before caller A's write does
(99.2), so it also sees 0; it records 99.15, write completes at 99.25, calls
at 99.35 — only 0.05 after caller A. -/
def exLimiterB : LimiterExec :=
  ⟨0, 99 + 1/20, 99 + 3/20, 99 + 5/20, 99 + 7/20⟩

/-- A protocol execution sequential after `exLimiterA`: it reads the timestamp
`exLimiterA` recorded (99.1) at time 99.2, sleeps the remaining 0.4, records
99.6, write completing at 99.7 and the call at 99.8. -/
def exLimiterSeq : LimiterExec :=
  ⟨99 + 1/10, 99 + 2/10, 99 + 6/10, 99 + 7/10, 99 + 8/10⟩

/-! ## Helper lemmas -/

theorem mapInsert_self {α : Type} (m : String → Option α) (k : String) (v : α) :
    mapInsert m k v k = some v := by
  simp [mapInsert]

theorem mapErase_self {α : Type} (m : String → Option α) (k : String) :
    mapErase m k k = none := by
  simp [mapErase]

/-- Deserializing a serialized session restores every field: `from_dict` is a
left inverse of `to_dict`. -/
theorem from_dict_to_dict (s : GameSession) :
    GameSession.from_dict s.to_dict = s := rfl

theorem getLast?_append_singleton {α : Type} (l : List α) (a : α) :
    (l ++ [a]).getLast? = some a := by
  simp

theorem ne_empty_of_data_ne_nil (s : String) (h : s.data ≠ []) : s ≠ "" :=
  fun he => h (by rw [he])

/-! ## The claims -/

/-- C1 (counterexample). The claimed session round-trip fails in the
shared-unavailable case: with the shared tier down and the in-memory fallback
empty, `save_game_session` stores nothing (because `update_session` only
writes ids that are already present), so the immediately following load
returns absent instead of the saved record. -/
theorem session_round_trip_counterexample :
    (get_game_session (save_game_session exWorldDown "s1" exSession) "s1").1 = none ∧
      (none : Option GameSession) ≠ some exSession := by
  constructor
  · simp [get_game_session, save_game_session, RedisState.save_session,
      RedisState.get_session, SessionManagerState.update_session,
      SessionManagerState.get_session, exWorldDown, emptyRedisDown]
  · simp

/-- C1 (amended). Session round-trip: `save_game_session` followed by
`get_game_session` returns a record equal to the original in every field —
history order and seen-guesses set included, by `from_dict_to_dict` — when the
shared store accepts the write; when the shared write fails the round-trip
holds provided the session id is already present in the local fallback map
(as `add_session` leaves it at game start). -/
theorem session_round_trip_amended (w : SessionWorld) (session_id : String) (s : GameSession) :
    (w.redis.available = true →
      (get_game_session (save_game_session w session_id s) session_id).1 = some s) ∧
    (w.redis.available = false → (w.manager.sessions session_id).isSome = true →
      (get_game_session (save_game_session w session_id s) session_id).1 = some s) := by
  constructor
  · intro hup
    simp [save_game_session, RedisState.save_session, hup, get_game_session,
      RedisState.get_session, mapInsert_self, from_dict_to_dict]
  · intro hdown hsome
    simp [save_game_session, RedisState.save_session, hdown, get_game_session,
      RedisState.get_session, SessionManagerState.update_session, hsome,
      SessionManagerState.get_session, mapInsert_self, sessionMaxAge]
    norm_num

/-- C1 (witness): the amended round-trip evaluated on a concrete world whose
shared tier is down but whose fallback map already holds the id. -/
theorem session_round_trip_amended_witness :
    (get_game_session (save_game_session exWorldDownWithLocal "s1" exSession) "s1").1 =
      some exSession :=
  (session_round_trip_amended exWorldDownWithLocal "s1" exSession).2 rfl rfl

/-- C2. Verdict round-trip: for every cache key and boolean verdict,
`save_verdict_to_cache` followed immediately by `get_verdict_from_cache`
returns the saved verdict, whether or not the shared tier is reachable —
the save writes the shared tier best-effort and unconditionally writes the
local fallback entry with a fresh timestamp, so the very next read is served
by one tier or the other. -/
theorem verdict_round_trip (w : CacheWorld) (k : String) (v : Bool) :
    (get_verdict_from_cache (save_verdict_to_cache w k v) k).1 = some v := by
  unfold get_verdict_from_cache save_verdict_to_cache RedisState.get_cache_verdict
    RedisState.set_cache_verdict
  cases h : w.redis.available <;>
    simp [h, mapInsert_self, CACHE_TTL]

/-- C3 (counterexample). The claimed mirror-overwrite semantics fails for
`increment_global_count`: with the shared tier healthy and returning the
positive value 100, the local entry (previously 5) is incremented to 6, not
overwritten with the returned shared value — and it is touched even though
the shared tier was available. -/
theorem counter_mirror_counterexample :
    exCounterWorld.redis.available = true ∧
      (increment_global_count exCounterWorld "w").1 = 100 ∧
      (increment_global_count exCounterWorld "w").2.localCache.global_counts "w" = some 6 ∧
      (increment_global_count exCounterWorld "w").2.localCache.global_counts "w" ≠
        some ((increment_global_count exCounterWorld "w").1) := by
  refine ⟨rfl, ?_, ?_, ?_⟩ <;>
    simp [increment_global_count, RedisState.increment_counter, exCounterWorld,
      mapInsert, pyLower, lowerChar]

/-- C3 (amended). Counter tier semantics: `get_global_count` mirrors a
positive shared value into the local map by overwriting and returns it, and
falls back to the local entry (leaving the state unchanged) when the shared
tier yields the zero sentinel; `increment_global_count` always bumps the
local entry by one (keeping the process-local count monotonic regardless of
shared health) and returns the shared value when positive, the new local
value otherwise. -/
theorem counter_tier_semantics (w : CacheWorld) (word : String) :
    (0 < w.redis.get_counter ("count:" ++ pyLower word) →
      (get_global_count w word).1 = w.redis.get_counter ("count:" ++ pyLower word) ∧
        (get_global_count w word).2.localCache.global_counts (pyLower word) =
          some (w.redis.get_counter ("count:" ++ pyLower word))) ∧
    (w.redis.get_counter ("count:" ++ pyLower word) = 0 →
      (get_global_count w word).1 = (w.localCache.global_counts (pyLower word)).getD 0 ∧
        (get_global_count w word).2 = w) ∧
    ((increment_global_count w word).2.localCache.global_counts (pyLower word) =
      some ((w.localCache.global_counts (pyLower word)).getD 0 + 1)) ∧
    (w.redis.available = true →
      (increment_global_count w word).1 = w.redis.counters ("count:" ++ pyLower word) + 1) ∧
    (w.redis.available = false →
      (increment_global_count w word).1 = (w.localCache.global_counts (pyLower word)).getD 0 + 1) := by
  refine ⟨?_, ?_, ?_, ?_, ?_⟩
  · intro hpos
    simp [get_global_count, hpos, Nat.pos_iff_ne_zero.mp hpos, mapInsert_self]
  · intro hzero
    simp [get_global_count, hzero]
  · cases h : w.localCache.global_counts (pyLower word) <;>
      simp [increment_global_count, h, mapInsert_self]
  · intro hup
    cases h : w.localCache.global_counts (pyLower word) <;>
      simp [increment_global_count, RedisState.increment_counter, hup, h]
  · intro hdown
    cases h : w.localCache.global_counts (pyLower word) <;>
      simp [increment_global_count, RedisState.increment_counter, hdown, h]

/-- C3 (witness): the amended semantics evaluated on the concrete world of the
counterexample — the read mirrors 99 into the local map, the increment
returns the shared 100. -/
theorem counter_tier_semantics_witness :
    (get_global_count exCounterWorld "w").1 = 99 ∧
      (get_global_count exCounterWorld "w").2.localCache.global_counts "w" = some 99 ∧
      (increment_global_count exCounterWorld "w").1 = 100 := by
  have h := counter_tier_semantics exCounterWorld "w"
  have hc : exCounterWorld.redis.get_counter ("count:" ++ pyLower "w") = 99 := by
    simp [RedisState.get_counter, exCounterWorld, pyLower, lowerChar]
  have h1 := h.1 (by rw [hc]; norm_num)
  have h4 := h.2.2.2.1 rfl
  refine ⟨?_, ?_, ?_⟩
  · rw [h1.1, hc]
  · have := h1.2
    rw [hc] at this
    simpa [pyLower, lowerChar] using this
  · rw [h4]
    simp [exCounterWorld, pyLower, lowerChar]

/-- C4. Retry-ceiling defaults: when every attempt at the external call
raises, `check_if_beats` gives up after exactly 3 attempts with the default
verdict `false`, and `get_feedback` gives up after exactly 3 attempts with the
deterministic templated fallback sentence, which is never the empty string.
Neither failure propagates: both embedded functions are total, the raised
exceptions having been absorbed into the `none` attempt outcomes. -/
theorem retry_ceiling_defaults (resp : Nat → Option String) (b : BackoffState)
    (current_word guess : String) (verdict : Bool)
    (hfail : ∀ n, resp n = none) :
    (check_if_beats resp b).1 = false ∧ (check_if_beats resp b).2.1 = 3 ∧
      (get_feedback resp current_word guess verdict b).1 =
        default_feedback current_word guess verdict ∧
      (get_feedback resp current_word guess verdict b).2.1 = 3 ∧
      default_feedback current_word guess verdict ≠ "" := by
  have hne : default_feedback current_word guess verdict ≠ "" := by
    apply ne_empty_of_data_ne_nil
    cases verdict <;>
      simp [default_feedback, quoted, squote, String.data_append]
  refine ⟨?_, ?_, ?_, ?_, hne⟩ <;>
    simp [check_if_beats, get_feedback, retry_loop, hfail]

/-- C4 (witness): the retry ceiling evaluated with every attempt failing. -/
theorem retry_ceiling_defaults_witness :
    (check_if_beats (fun _ => none) ⟨1⟩).1 = false ∧
      (check_if_beats (fun _ => none) ⟨1⟩).2.1 = 3 ∧
      (get_feedback (fun _ => none) "Rock" "Paper" true ⟨1⟩).1 =
        default_feedback "Rock" "Paper" true ∧
      (get_feedback (fun _ => none) "Rock" "Paper" true ⟨1⟩).2.1 = 3 ∧
      default_feedback "Rock" "Paper" true ≠ "" :=
  retry_ceiling_defaults (fun _ => none) ⟨1⟩ "Rock" "Paper" true (fun _ => rfl)

/-- C5. Local-tier TTL: an entry of the local fallback whose age exceeds its
TTL is never served — when the shared tier cannot answer, an expired local
verdict entry is evicted and the lookup reports absent, and the in-memory
session map does the same for entries older than its max age. -/
theorem local_ttl_expiry :
    (∀ (w : CacheWorld) (k : String),
      w.redis.get_cache_verdict ("verdict:" ++ k) = none →
      CACHE_TTL < w.now - (w.localCache.cache_timestamps k).getD 0 →
      (get_verdict_from_cache w k).1 = none ∧
        (get_verdict_from_cache w k).2.localCache.verdict_cache k = none) ∧
    (∀ (m : SessionManagerState) (session_id : String) (now : ℚ),
      sessionMaxAge < now - (m.timestamps session_id).getD 0 →
      (m.get_session session_id now).1 = none ∧
        (m.get_session session_id now).2.sessions session_id = none) := by
  constructor
  · intro w k hmiss httl
    cases h : w.localCache.verdict_cache k with
    | none => simp [get_verdict_from_cache, hmiss, h]
    | some v =>
      simp [get_verdict_from_cache, hmiss, h, not_le.mpr httl, mapErase_self]
  · intro m session_id now httl
    cases h : m.sessions session_id with
    | none => simp [SessionManagerState.get_session, h]
    | some s =>
      simp [SessionManagerState.get_session, h, httl, mapErase_self]

/-- C5 (witness): a verdict entry written at time 0 and read one second past
the 24h TTL is reported absent and evicted, and a session map entry one
second past its max age is reported absent. -/
theorem local_ttl_expiry_witness :
    ((get_verdict_from_cache exExpiredWorld "k").1 = none ∧
      (get_verdict_from_cache exExpiredWorld "k").2.localCache.verdict_cache "k" = none) ∧
      ((SessionManagerState.get_session ⟨fun q => if q = "s1" then some exSession else none,
          fun _ => some 0⟩ "s1" (sessionMaxAge + 1)).1 = none) := by
  constructor
  · exact local_ttl_expiry.1 exExpiredWorld "k" rfl
      (by norm_num [exExpiredWorld, CACHE_TTL])
  · exact (local_ttl_expiry.2 ⟨fun q => if q = "s1" then some exSession else none,
      fun _ => some 0⟩ "s1" (sessionMaxAge + 1)
      (by norm_num [sessionMaxAge])).1

/-- C6. Backoff progression: the delay sequence produced by consecutive
`BackoffState.increase` calls starts at the 1s floor, doubles exactly while
the doubling stays within the 60s ceiling (hence each successive delay is at
least double the previous one until the ceiling), never exceeds 60s, and any
success — `reset`, which `check_if_beats` invokes on its first successful
attempt — restores the delay to the floor. -/
theorem backoff_progression :
    backoffDelay 0 = INITIAL_BACKOFF ∧
      (∀ n, backoffDelay (n + 1) = min (backoffDelay n * 2) MAX_BACKOFF) ∧
      (∀ n, backoffDelay n ≤ MAX_BACKOFF) ∧
      (∀ n, backoffDelay n * 2 ≤ MAX_BACKOFF → backoffDelay (n + 1) = backoffDelay n * 2) ∧
      (∀ b : BackoffState, b.reset = ⟨INITIAL_BACKOFF⟩) ∧
      (∀ (resp : Nat → Option String) (b : BackoffState) (t : String) (k : Nat),
        k < 3 → (∀ i, i < k → resp i = none) → resp k = some t →
        (check_if_beats resp b).2.2.1 = ⟨INITIAL_BACKOFF⟩) := by
  have hstep : ∀ n, backoffDelay (n + 1) = min (backoffDelay n * 2) MAX_BACKOFF := by
    intro n
    simp [backoffDelay, backoffStateAt, BackoffState.increase]
  have hle : ∀ n, backoffDelay n ≤ MAX_BACKOFF := by
    intro n
    cases n with
    | zero => norm_num [backoffDelay, backoffStateAt, INITIAL_BACKOFF, MAX_BACKOFF]
    | succ m => rw [hstep m]; exact min_le_right _ _
  refine ⟨rfl, hstep, hle, ?_, fun b => rfl, ?_⟩
  · intro n hdouble
    rw [hstep n, min_eq_left hdouble]
  · intro resp b t k hk hbefore hsucc
    interval_cases k
    · simp [check_if_beats, retry_loop, hsucc, BackoffState.reset]
    · simp [check_if_beats, retry_loop, hbefore 0 (by norm_num), hsucc, BackoffState.reset]
    · simp [check_if_beats, retry_loop, hbefore 0 (by norm_num), hbefore 1 (by norm_num),
        hsucc, BackoffState.reset]

/-- C6 (witness): the progression evaluated at the floor — 1, 2 and the
ceiling value 60 at index 6 — and a reset through a successful second
attempt from a 7s backoff. -/
theorem backoff_progression_witness :
    backoffDelay 0 = 1 ∧ backoffDelay 1 = 2 ∧ backoffDelay 6 = 60 ∧
      (check_if_beats (fun i => if i = 0 then none else some "true") ⟨7⟩).2.2.1 = ⟨1⟩ := by
  have h := backoff_progression
  refine ⟨h.1, ?_, ?_, ?_⟩
  · rw [h.2.1 0, h.1]
    norm_num [INITIAL_BACKOFF, MAX_BACKOFF]
  · have h1 := h.2.1
    have e1 : backoffDelay 1 = 2 := by
      rw [h1 0, h.1]; norm_num [INITIAL_BACKOFF, MAX_BACKOFF]
    have e2 : backoffDelay 2 = 4 := by rw [h1 1, e1]; norm_num [MAX_BACKOFF]
    have e3 : backoffDelay 3 = 8 := by rw [h1 2, e2]; norm_num [MAX_BACKOFF]
    have e4 : backoffDelay 4 = 16 := by rw [h1 3, e3]; norm_num [MAX_BACKOFF]
    have e5 : backoffDelay 5 = 32 := by rw [h1 4, e4]; norm_num [MAX_BACKOFF]
    rw [h1 5, e5]; norm_num [MAX_BACKOFF]
  · exact h.2.2.2.2.2 (fun i => if i = 0 then none else some "true") ⟨7⟩ "true" 1
      (by norm_num) (fun i hi => by interval_cases i; rfl) rfl

/-- C7 (counterexample). The claimed cross-process spacing invariant fails:
two callers that both follow the limiter protocol but whose reads interleave
before either write completes (which the cooperative scheduler permits, each
network operation being a suspension point) both see the stale timestamp and
are permitted calls only 0.05s apart, below the 0.5s minimum interval. -/
theorem rate_limiter_concurrent_counterexample :
    bothReadStale 0 exLimiterA exLimiterB ∧
      exLimiterA.callTime ≤ exLimiterB.callTime ∧
      exLimiterB.callTime - exLimiterA.callTime < REQUEST_INTERVAL := by
  refine ⟨?_, ?_, ?_⟩
  · unfold bothReadStale LimiterExec.follows exLimiterA exLimiterB REQUEST_INTERVAL
    norm_num
  · unfold exLimiterA exLimiterB
    norm_num
  · unfold exLimiterA exLimiterB REQUEST_INTERVAL
    norm_num

/-- C7 (amended). Rate-limiter spacing holds for sequential executions: when a
protocol execution reads the timestamp the previous execution recorded, its
recorded timestamp — and hence its external call, which comes no earlier — is
at least the 0.5s minimum interval after the previous recorded timestamp. The
read-sleep-record sequence is not atomic, so this spacing is not enforced
between concurrently interleaved callers (see the counterexample). -/
theorem rate_limiter_sequential_spacing (e1 e2 : LimiterExec)
    (hseq : e2.lastSeen = e1.writeVal) (hfol : e2.follows) :
    e1.writeVal + REQUEST_INTERVAL ≤ e2.writeVal ∧
      e1.writeVal + REQUEST_INTERVAL ≤ e2.callTime := by
  obtain ⟨hrw, hwd, hdc, hslept⟩ := hfol
  have hw : e1.writeVal + REQUEST_INTERVAL ≤ e2.writeVal := by
    by_cases hgap : e2.readTime - e2.lastSeen < REQUEST_INTERVAL
    · have := hslept hgap
      rw [hseq] at this
      exact this
    · push_neg at hgap
      rw [hseq] at hgap
      linarith
  exact ⟨hw, by linarith⟩

/-- C7 (witness): the sequential spacing evaluated on a concrete pair of
executions, the second reading the timestamp the first recorded. -/
theorem rate_limiter_sequential_spacing_witness :
    exLimiterA.writeVal + REQUEST_INTERVAL ≤ exLimiterSeq.writeVal ∧
      exLimiterA.writeVal + REQUEST_INTERVAL ≤ exLimiterSeq.callTime := by
  apply rate_limiter_sequential_spacing
  · rfl
  · norm_num [LimiterExec.follows, exLimiterSeq, REQUEST_INTERVAL]

/-- C8. Verdict parsing is total — the embedded `parse_ai_response` is a
function returning a defined pair for every input — and applies its layered
matchers in order on the stripped, lower-cased text: exact match
(`true` to `(true, 1.0)`, `false` to `(false, 1.0)`), the anchored regex
matchers (whose `true`/`false` forms always agree with the exact layer, the
text being pre-stripped, and whose `yes`/`no` forms fire next), then
substring match as last resort (`true` present without `false` gives a true
verdict and conversely); input matching no layer yields the
verdict `false` with zero confidence instead of an error. -/
theorem parse_ai_response_layers (s : String) :
    (pyLower (pyStrip s) = "true" → parse_ai_response s = (true, 1)) ∧
    (pyLower (pyStrip s) = "false" → parse_ai_response s = (false, 1)) ∧
    (anchored_match "true" (pyLower (pyStrip s)) = true →
      (parse_ai_response s).1 = true) ∧
    (anchored_match "false" (pyLower (pyStrip s)) = true →
      (parse_ai_response s).1 = false) ∧
    (pyLower (pyStrip s) ≠ "true" → pyLower (pyStrip s) ≠ "false" →
      anchored_match "true" (pyLower (pyStrip s)) = false →
      anchored_match "false" (pyLower (pyStrip s)) = false →
      anchored_match "yes" (pyLower (pyStrip s)) = true →
      parse_ai_response s = (true, 9/10)) ∧
    (pyLower (pyStrip s) ≠ "true" → pyLower (pyStrip s) ≠ "false" →
      anchored_match "true" (pyLower (pyStrip s)) = false →
      anchored_match "false" (pyLower (pyStrip s)) = false →
      anchored_match "yes" (pyLower (pyStrip s)) = false →
      anchored_match "no" (pyLower (pyStrip s)) = true →
      parse_ai_response s = (false, 9/10)) ∧
    (pyLower (pyStrip s) ≠ "true" → pyLower (pyStrip s) ≠ "false" →
      anchored_match "true" (pyLower (pyStrip s)) = false →
      anchored_match "false" (pyLower (pyStrip s)) = false →
      anchored_match "yes" (pyLower (pyStrip s)) = false →
      anchored_match "no" (pyLower (pyStrip s)) = false →
      strContains (pyLower (pyStrip s)) "true" = true →
      strContains (pyLower (pyStrip s)) "false" = false →
      parse_ai_response s = (true, 6/10)) ∧
    (pyLower (pyStrip s) ≠ "true" → pyLower (pyStrip s) ≠ "false" →
      anchored_match "true" (pyLower (pyStrip s)) = false →
      anchored_match "false" (pyLower (pyStrip s)) = false →
      anchored_match "yes" (pyLower (pyStrip s)) = false →
      anchored_match "no" (pyLower (pyStrip s)) = false →
      strContains (pyLower (pyStrip s)) "false" = true →
      strContains (pyLower (pyStrip s)) "true" = false →
      parse_ai_response s = (false, 6/10)) ∧
    (pyLower (pyStrip s) ≠ "true" → pyLower (pyStrip s) ≠ "false" →
      anchored_match "true" (pyLower (pyStrip s)) = false →
      anchored_match "false" (pyLower (pyStrip s)) = false →
      anchored_match "yes" (pyLower (pyStrip s)) = false →
      anchored_match "no" (pyLower (pyStrip s)) = false →
      strContains (pyLower (pyStrip s)) "true" =
        strContains (pyLower (pyStrip s)) "false" →
      parse_ai_response s = (false, 0)) := by
  refine ⟨?_, ?_, ?_, ?_, ?_, ?_, ?_, ?_, ?_⟩
  · intro h1
    simp only [parse_ai_response]
    simp_all
  · intro h1
    simp only [parse_ai_response]
    simp_all
  · intro h
    by_cases h1 : pyLower (pyStrip s) = "true"
    · simp [parse_ai_response, h1]
    · by_cases h2 : pyLower (pyStrip s) = "false"
      · rw [h2] at h
        exact absurd h (by decide)
      · simp [parse_ai_response, h1, h2, h]
  · intro h
    by_cases h1 : pyLower (pyStrip s) = "true"
    · rw [h1] at h
      exact absurd h (by decide)
    · by_cases h2 : pyLower (pyStrip s) = "false"
      · simp [parse_ai_response, h1, h2]
      · by_cases h3 : anchored_match "true" (pyLower (pyStrip s)) = true
        · exfalso
          simp only [anchored_match, decide_eq_true_eq] at h h3
          rw [h3] at h
          exact absurd h (by decide)
        · simp only [Bool.not_eq_true] at h3
          simp [parse_ai_response, h1, h2, h3, h]
  all_goals
    intros
    simp only [parse_ai_response]
    simp_all

/-- C8 (witness): the no-layer default evaluated on concrete unparseable
input. -/
theorem parse_ai_response_layers_witness :
    parse_ai_response "banana" = (false, 0) := by
  apply (parse_ai_response_layers "banana").2.2.2.2.2.2.2.2 <;> decide

/-- C9. Session-record invariant: every session reachable from the
constructor through any sequence of `process_guess` calls keeps its current
word equal to the last history element and its seen-guesses set containing
the case-folded form of every history element; and once `game_over` is true,
any further `process_guess` leaves every field unchanged and is rejected. -/
theorem session_state_invariant (s : GameSession) (hr : s.Reachable) :
    s.history_list.getLast? = some s.current_word ∧
      (∀ x ∈ s.history_list, pyLower x ∈ s.seen_guesses) ∧
      (s.game_over = true → ∀ (env : GuessEnv) (g : String),
        (s.process_guess env g).1 = s ∧ (s.process_guess env g).2.valid = false) := by
  have hover : ∀ (u : GameSession), u.game_over = true → ∀ (env : GuessEnv) (g : String),
      (u.process_guess env g).1 = u ∧ (u.process_guess env g).2.valid = false := by
    intro u h env g
    simp [GameSession.process_guess, h]
  induction hr with
  | init w p =>
    refine ⟨rfl, ?_, hover _⟩
    intro x hx
    simp [GameSession.init] at hx ⊢
    simp [hx]
  | step u env g hu ih =>
    obtain ⟨ih1, ih2, _⟩ := ih
    have hres : ((u.process_guess env g).1 = u) ∨
        ((u.process_guess env g).1 = { u with game_over := true }) ∨
        ((u.process_guess env g).1 =
          { u with current_word := g, history_list := u.history_list ++ [g],
                   seen_guesses := insert (pyLower g) u.seen_guesses,
                   score := u.score + 1 }) := by
      unfold GameSession.process_guess GameSession.process_verdict_with_feedback
      split_ifs <;> simp
    rcases hres with h | h | h <;> rw [h]
    · exact ⟨ih1, ih2, hover _⟩
    · exact ⟨ih1, ih2, hover _⟩
    · refine ⟨?_, ?_, hover _⟩
      · simp [getLast?_append_singleton]
      · intro x hx
        rcases List.mem_append.mp hx with hx | hx
        · exact Finset.mem_insert_of_mem (ih2 x hx)
        · simp at hx
          simp [hx]

/-- C9 (witness): the invariant evaluated at the freshly constructed
session. -/
theorem session_state_invariant_witness :
    exSession.history_list.getLast? = some exSession.current_word ∧
      (∀ x ∈ exSession.history_list, pyLower x ∈ exSession.seen_guesses) ∧
      (exSession.game_over = true → ∀ (env : GuessEnv) (g : String),
        (exSession.process_guess env g).1 = exSession ∧
          (exSession.process_guess env g).2.valid = false) :=
  session_state_invariant exSession (GameSession.Reachable.init "Rock" "default")

/-- C10. The implicit fallback-write gap: for a session id absent from the
in-memory map, `SessionManager.update_session` leaves the map and its
timestamps completely unchanged, so when the shared-store write fails inside
`save_game_session` for such an id the whole state is unchanged by the save
and the subsequent load reports absent. Only ids first added through
`add_session` receive local fallback writes. -/
theorem update_session_gap (w : SessionWorld) (session_id : String) (s : GameSession) :
    w.manager.sessions session_id = none →
    (∀ now : ℚ, w.manager.update_session session_id s now = w.manager) ∧
      (w.redis.available = false →
        save_game_session w session_id s = w ∧
          (get_game_session (save_game_session w session_id s) session_id).1 = none) := by
  intro habs
  constructor
  · intro now
    simp [SessionManagerState.update_session, habs]
  · intro hdown
    have hsave : save_game_session w session_id s = w := by
      simp [save_game_session, RedisState.save_session, hdown,
        SessionManagerState.update_session, habs]
    refine ⟨hsave, ?_⟩
    rw [hsave]
    simp [get_game_session, RedisState.get_session, hdown,
      SessionManagerState.get_session, habs]

/-- C10 (witness): the gap evaluated on the concrete down-tier world with an
empty fallback map. -/
theorem update_session_gap_witness :
    exWorldDown.manager.update_session "s1" exSession exWorldDown.now = exWorldDown.manager ∧
      save_game_session exWorldDown "s1" exSession = exWorldDown ∧
      (get_game_session (save_game_session exWorldDown "s1" exSession) "s1").1 = none := by
  have h := update_session_gap exWorldDown "s1" exSession rfl
  exact ⟨h.1 exWorldDown.now, (h.2 rfl).1, (h.2 rfl).2⟩
